import Mathlib

/-!
Verification development for the LifeStream job-orchestration and
processing core. Each definition below is a shallow embedding of a
function of the repository; timestamps and durations are modelled as
rationals, machine floats in the source being used only for exact
small arithmetic in the properties considered here. Fallible code is
modelled with Except, DynamoDB/S3/SQS side effects as explicit state
or event traces.
-/

namespace LifeStream

/-! ## Data model

The module src.models.data_models is imported throughout the source but its
file is not under src; the record shapes below are modelled from the spec
(section 6 summary JSON schema and section 4.5 stage inputs) restricted to
the fields the embedded functions read. -/

/-- Modelled from the spec: AudioSegment of the absent data_models.py,
start and end with speaker_id and text as read by synchronization.py and
chunking.py. -/
structure AudioSegment where
  start_time : ℚ
  end_time : ℚ
  speaker_id : String
  transcript_text : Option String := none
  deriving Repr, DecidableEq

/-- Modelled from the spec: VideoFrame of the absent data_models.py, a
keyframe carrying its timestamp and path. -/
structure VideoFrame where
  timestamp : ℚ
  frame_path : String
  deriving Repr, DecidableEq

/-- Modelled from the spec: SynchronizedContext of the absent
data_models.py, a window produced by the sync stage. The metadata dict of
the source carries only labels and counts derived from the other fields
and is omitted. -/
structure SynchronizedContext where
  start_timestamp : ℚ
  end_timestamp : ℚ
  audio_segments : List AudioSegment
  video_frames : List VideoFrame
  deriving Repr, DecidableEq

/-! ## src/processing/synchronization.py (ContextSynchronizer) -/

/-- Embeds ContextSynchronizer._segment_overlaps_window: the segment starts
before the window ends and ends after the window starts. -/
def segment_overlaps_window (segment : AudioSegment) (window_start window_end : ℚ) : Bool :=
  decide (segment.start_time < window_end ∧ segment.end_time > window_start)

/-- Insertion of a rational into a sorted list, ascending. -/
def insertAsc (x : ℚ) : List ℚ → List ℚ
  | [] => [x]
  | y :: ys => if x ≤ y then x :: y :: ys else y :: insertAsc x ys

/-- Ascending insertion sort, used to embed the Python built-in sorted. -/
def sortAsc (l : List ℚ) : List ℚ := l.foldr insertAsc []

/-- Embeds sorted(list(set(l))) of Python: sort, then drop duplicates. -/
def sortedDedup (l : List ℚ) : List ℚ := (sortAsc l).dedup

/-- Consecutive pairs (boundaries[i], boundaries[i+1]) of a boundary list,
embedding the loop for i in range(len(boundaries) - 1). -/
def consecutivePairs : List ℚ → List (ℚ × ℚ)
  | a :: b :: rest => (a, b) :: consecutivePairs (b :: rest)
  | _ => []

/-- Audio segments of a window, as filtered in synchronize_contexts. -/
def windowAudio (audio_segments : List AudioSegment) (ws we : ℚ) : List AudioSegment :=
  audio_segments.filter (fun seg => segment_overlaps_window seg ws we)

/-- Video frames of a window: current_start <= frame.timestamp < current_end. -/
def windowFrames (video_frames : List VideoFrame) (ws we : ℚ) : List VideoFrame :=
  video_frames.filter (fun f => decide (ws ≤ f.timestamp ∧ f.timestamp < we))

/-- Embeds the while current_start < end_time loop of the fixed-chunk branch
of synchronize_contexts. The Python loop advances current_start by at most
chunk_size each iteration; it is modelled with an explicit iteration bound
(fuel) that the caller picks large enough to cover the whole timeline, which
coincides with the loop whenever chunk_size is positive. A context is
appended only when the window holds data. -/
def fixedWindowLoop (audio_segments : List AudioSegment) (video_frames : List VideoFrame)
    (chunk_size end_time : ℚ) : ℕ → ℚ → List SynchronizedContext
  | 0, _ => []
  | fuel + 1, current_start =>
    if current_start < end_time then
      let current_end := min (current_start + chunk_size) end_time
      let window_audio_segments := windowAudio audio_segments current_start current_end
      let window_video_frames := windowFrames video_frames current_start current_end
      let rest := fixedWindowLoop audio_segments video_frames chunk_size end_time fuel current_end
      if window_audio_segments.isEmpty && window_video_frames.isEmpty then rest
      else
        { start_timestamp := current_start
          end_timestamp := current_end
          audio_segments := window_audio_segments
          video_frames := window_video_frames } :: rest
    else []

/-- Iteration bound for fixedWindowLoop: one more than the number of
chunk-size steps needed to cross the timeline. -/
def fixedWindowFuel (start_time end_time chunk_size : ℚ) : ℕ :=
  (Int.ceil ((end_time - start_time) / chunk_size)).toNat + 1

/-- Default chunk size, Settings.chunk_size_seconds (300 seconds). -/
def chunk_size_seconds : ℚ := 300

/-- Embeds ContextSynchronizer.synchronize_contexts of
src/src/processing/synchronization.py. Errors model the ValueError raises.
Note this function of the source has no video_duration parameter: the
timeline is [min all_timestamps, max all_timestamps]. -/
def synchronize_contexts (audio_segments : List AudioSegment)
    (video_frames : List VideoFrame)
    (chunk_size : Option ℚ := none)
    (scene_boundaries : Option (List ℚ) := none) :
    Except String (List SynchronizedContext) :=
  if audio_segments.isEmpty && video_frames.isEmpty then
    .error "No audio segments or video frames provided - cannot synchronize contexts"
  else
    let all_timestamps :=
      audio_segments.map (·.start_time) ++ audio_segments.map (·.end_time) ++
        video_frames.map (·.timestamp)
    match all_timestamps with
    | [] => .error "No timestamps found in audio or video data - cannot synchronize contexts"
    | t :: ts =>
      let start_time := ts.foldl min t
      let end_time := ts.foldl max t
      match scene_boundaries with
      | some bs =>
        if bs.isEmpty then
          let cs := chunk_size.getD chunk_size_seconds
          .ok (fixedWindowLoop audio_segments video_frames cs end_time
            (fixedWindowFuel start_time end_time cs) start_time)
        else
          let boundaries := sortedDedup ([start_time] ++ sortAsc bs ++ [end_time])
          .ok ((consecutivePairs boundaries).map (fun p =>
            { start_timestamp := p.1
              end_timestamp := p.2
              audio_segments := windowAudio audio_segments p.1 p.2
              video_frames := windowFrames video_frames p.1 p.2 }))
      | none =>
        let cs := chunk_size.getD chunk_size_seconds
        .ok (fixedWindowLoop audio_segments video_frames cs end_time
          (fixedWindowFuel start_time end_time cs) start_time)

/-! ## src/utils/jobs_store.py: stage vocabulary and progress -/

/-- Embeds STAGE_ORDER of src/src/utils/jobs_store.py. -/
def STAGE_ORDER : List String :=
  ["started", "download", "audio_extraction", "diarization", "asr",
   "scene_detection", "keyframes", "sync", "summarization", "upload",
   "indexing", "completed"]

/-- Embeds _progress_from_stage_and_timings of src/src/utils/jobs_store.py.
The timings argument is carried but, as in the source, unused. -/
def progress_from_stage_and_timings (current_stage : String)
    (timings : Option (List (String × ℤ))) : ℚ :=
  let _ := timings
  if current_stage = "completed" then 1
  else if current_stage = "failed" then 1
  else if current_stage = "queued" then 0
  else
    let n : ℚ := STAGE_ORDER.length
    if current_stage ∈ STAGE_ORDER then
      ((STAGE_ORDER.indexOf current_stage : ℚ) + 1) / n
    else (1 : ℚ) / 2

/-! ## src/utils/openai_retry.py -/

/-- Unit of a provider-advised retry-after interval, the second capture
group of the regex try again in N(ms|s); absent means seconds. -/
inductive RetryUnit
  | ms
  | s
  deriving Repr, DecidableEq

/-- Embeds MIN_RETRY_DELAY_429_SEC. -/
def MIN_RETRY_DELAY_429_SEC : ℚ := 15

/-- Embeds MAX_RETRY_DELAY_SEC. -/
def MAX_RETRY_DELAY_SEC : ℚ := 90

/-- Value advised by the error message: the regex match is modelled as the
captured number and optional unit; ms divides by 1000, default unit is s. -/
def parsedRetryAfter (m : Option (ℕ × Option RetryUnit)) : Option ℚ :=
  m.map (fun p =>
    match p.2.getD RetryUnit.s with
    | RetryUnit.ms => (p.1 : ℚ) / 1000
    | RetryUnit.s => (p.1 : ℚ))

/-- Embeds _retry_delay_seconds of src/src/utils/openai_retry.py. -/
def retry_delay_seconds (m : Option (ℕ × Option RetryUnit)) (attempt : ℕ) : ℚ :=
  match parsedRetryAfter m with
  | some parsed => max MIN_RETRY_DELAY_429_SEC (min MAX_RETRY_DELAY_SEC parsed)
  | none => max MIN_RETRY_DELAY_429_SEC (min MAX_RETRY_DELAY_SEC ((2 : ℚ) ^ (attempt + 4)))

/-- Exception raised by a model call: whether _is_rate_limit recognizes it,
and the retry-after interval its message advises, if any. -/
structure ApiErr where
  is429 : Bool
  retryAfter : Option (ℕ × Option RetryUnit)
  deriving Repr, DecidableEq

/-- Outcome of the retry loop: a value, a re-raised exception, or the
unreachable RuntimeError of the final line. -/
inductive RetryOutcome (α : Type)
  | ok (a : α)
  | err (e : ApiErr)
  | unreachableErr
  deriving Repr, DecidableEq

/-- Embeds the for-attempt loop of with_429_retry. The call under retry is
modelled as a function from the attempt index to a result; the first
component below is the remaining number of loop iterations, the second the
current attempt index. Returns the outcome and the list of sleep durations
performed, in order. -/
def with_429_retry_go (fn : ℕ → Except ApiErr α) :
    ℕ → ℕ → Option ApiErr → RetryOutcome α × List ℚ
  | 0, _, last =>
    (match last with
     | some e => RetryOutcome.err e
     | none => RetryOutcome.unreachableErr, [])
  | r + 1, attempt, _ =>
    match fn attempt with
    | .ok a => (RetryOutcome.ok a, [])
    | .error e =>
      if e.is429 = false then (RetryOutcome.err e, [])
      else if r = 0 then (RetryOutcome.err e, [])
      else
        let delay := retry_delay_seconds e.retryAfter attempt
        let p := with_429_retry_go fn r (attempt + 1) (some e)
        (p.1, delay :: p.2)

/-- Embeds with_429_retry of src/src/utils/openai_retry.py; the default
max_retries of the source is 8. -/
def with_429_retry (fn : ℕ → Except ApiErr α) (max_retries : ℕ := 8) :
    RetryOutcome α × List ℚ :=
  with_429_retry_go fn max_retries 0 none

/-- Summarization calls with_429_retry with max_retries equal to 5
(src/src/processing/summarization.py line 121). -/
def summarization_max_retries : ℕ := 5

/-- Embeddings call with_429_retry with max_retries equal to 8
(src/src/memory/embeddings.py line 73). -/
def embeddings_max_retries : ℕ := 8

/-! ## src/storage/s3_service.py (upload verification) -/

/-- Embeds the S3UploadResult dataclass. -/
structure S3UploadResult where
  success : Bool
  s3_path : String
  bucket : String
  key : String
  file_size : ℕ
  etag : Option String := none
  error : Option String := none
  deriving Repr, DecidableEq

/-- Embeds S3Service.upload_file. Network effects are modelled by the
outcomes of the two fallible boto3 calls: put_outcome is the error message
of upload_fileobj when it raises, head_outcome is the ContentLength and
ETag returned by head_object or the error message when it raises. The
result pairs the returned S3UploadResult with a flag recording whether
delete_object was attempted on the partial upload; a raised
FileNotFoundError is the .error case. -/
def upload_file (bucket_name s3_key : String) (file_exists : Bool) (file_size : ℕ)
    (put_outcome : Option String) (head_outcome : Except String (ℕ × String)) :
    Except String (S3UploadResult × Bool) :=
  if file_exists = false then
    .error ("File not found: " ++ s3_key)
  else
    let s3_path := "s3://" ++ bucket_name ++ "/" ++ s3_key
    match put_outcome with
    | some e =>
      .ok ({ success := false, s3_path := s3_path, bucket := bucket_name, key := s3_key,
             file_size := file_size, error := some ("S3 upload failed: " ++ e) }, false)
    | none =>
      match head_outcome with
      | .error e =>
        .ok ({ success := false, s3_path := s3_path, bucket := bucket_name, key := s3_key,
               file_size := file_size, error := some ("S3 upload failed: " ++ e) }, false)
      | .ok (s3_file_size, etag) =>
        if s3_file_size ≠ file_size then
          .ok ({ success := false, s3_path := s3_path, bucket := bucket_name, key := s3_key,
                 file_size := file_size,
                 error := some "Unexpected error during upload: S3 upload size mismatch" },
               true)
        else
          .ok ({ success := true, s3_path := s3_path, bucket := bucket_name, key := s3_key,
                 file_size := file_size, etag := some etag }, false)

/-! ## src/memory/chunking.py -/

/-- Modelled from the spec: Participant of the absent data_models.py; only
speaker_id is read by chunking.py. -/
structure Participant where
  speaker_id : String
  deriving Repr, DecidableEq

/-- Modelled from the spec: TimeBlock of the section 6 summary JSON schema,
restricted to the fields chunking.py reads. The per_speaker_summary dict is
a list of pairs in insertion order. -/
structure TimeBlock where
  start_time : String
  end_time : String
  activity : String
  location : Option String := none
  source_reliability : String := "Medium"
  participants : List Participant := []
  transcript_summary : Option String := none
  per_speaker_summary : List (String × String) := []
  visual_summary : Option String := none
  action_items : List String := []
  audio_segments : List AudioSegment := []
  video_frames : List VideoFrame := []
  deriving Repr, DecidableEq

/-- Modelled from the spec: DailySummary of the section 6 summary JSON
schema, restricted to the fields chunking.py reads. -/
structure DailySummary where
  date : String
  video_source : String
  time_blocks : List TimeBlock
  deriving Repr, DecidableEq

/-- Truthiness of an optional string, embedding the Python if tests: false
for None and for the empty string. -/
def strTruthy : Option String → Bool
  | none => false
  | some s => !s.isEmpty

/-- Insertion of a string into a sorted list, ascending. -/
def insertStrAsc (x : String) : List String → List String
  | [] => [x]
  | y :: ys => if x ≤ y then x :: y :: ys else y :: insertStrAsc x ys

/-- Ascending insertion sort on strings, embedding the Python sorted. -/
def sortStrAsc (l : List String) : List String := l.foldr insertStrAsc []

/-- Embeds _collect_speakers: distinct speaker ids from audio segments and
from participants with a truthy speaker_id, sorted. -/
def collect_speakers (block : TimeBlock) : List String :=
  let fromAudio := block.audio_segments.map (·.speaker_id)
  let fromParticipants :=
    (block.participants.filter (fun p => !p.speaker_id.isEmpty)).map (·.speaker_id)
  sortStrAsc (fromAudio ++ fromParticipants).dedup

/-- Embeds _build_summary_text of src/src/memory/chunking.py. -/
def build_summary_text (block : TimeBlock) : String :=
  let lines := [block.start_time ++ " - " ++ block.end_time ++ ": " ++ block.activity]
  let lines := lines ++
    (match block.location with
     | some l => if l.isEmpty then [] else ["Location: " ++ l]
     | none => [])
  let lines := lines ++
    (if !block.per_speaker_summary.isEmpty then
      "Per-speaker summary:" ::
        block.per_speaker_summary.map (fun p => "  " ++ p.1 ++ ": " ++ p.2)
     else
      match block.transcript_summary with
      | some ts => if ts.isEmpty then [] else ["Summary: " ++ ts]
      | none => [])
  let lines := lines ++
    (match block.visual_summary with
     | some vs => if vs.isEmpty then [] else ["Visual: " ++ vs]
     | none => [])
  let lines := lines ++
    (if !block.action_items.isEmpty then
      "Action items:" :: block.action_items.map (fun item => "- " ++ item)
     else [])
  String.intercalate "\n" lines

/-- Embeds _build_transcript_text: the first max_segments audio segments
rendered as transcript excerpt lines, empty when there is no audio. -/
def build_transcript_text (block : TimeBlock) (max_segments : ℕ := 10) : String :=
  if block.audio_segments.isEmpty then ""
  else
    let segments := block.audio_segments.take max_segments
    let lines := "Transcript excerpts:" ::
      segments.map (fun seg =>
        let content :=
          match seg.transcript_text with
          | some t => if t.isEmpty then "[no transcript]" else t
          | none => "[no transcript]"
        "[" ++ seg.speaker_id ++ "] " ++ content)
    String.intercalate "\n" lines

/-- Embeds the Python truncation text[: max_chars - 3] + "..." applied when
len(text) > max_chars. -/
def truncateText (max_chars : ℕ) (s : String) : String :=
  if s.length > max_chars then (s.take (max_chars - 3)) ++ "..." else s

/-- Embeds _parse_time_to_seconds. The source returns
float(hours * 3600 + minutes * 60 + seconds), always an integer, modelled
as an integer; any int() conversion failure yields 0. The Python
whitespace split is modelled by splitting on a space and dropping empty
pieces. -/
def parse_time_to_seconds (time_str : String) : ℤ :=
  if time_str.isEmpty then 0
  else
    let raw := time_str.trim
    let up := raw.toUpper
    let parts := (raw.splitOn " ").filter (fun p => !p.isEmpty)
    let timeAndSuffix : String × Option String :=
      if up.endsWith "AM" || up.endsWith "PM" then
        match parts with
        | [tp, suf] => (tp, some suf)
        | _ => (raw, none)
      else (raw, none)
    let comps := timeAndSuffix.1.splitOn ":"
    match comps with
    | [] => 0
    | c0 :: rest =>
      match c0.toInt? with
      | none => 0
      | some hours =>
        let minutes? : Option ℤ :=
          match rest with
          | [] => some 0
          | m :: _ => m.toInt?
        let seconds? : Option ℤ :=
          match rest with
          | _ :: s :: _ => s.toInt?
          | _ => some 0
        match minutes?, seconds? with
        | some minutes, some seconds =>
          let hours :=
            match timeAndSuffix.2 with
            | some suf =>
              let sufU := suf.toUpper
              let h1 := if sufU = "PM" && decide (hours < 12) then hours + 12 else hours
              if sufU = "AM" && decide (h1 = 12) then 0 else h1
            | none => hours
          hours * 3600 + minutes * 60 + seconds
        | _, _ => 0

/-- Rendering of an integral float with two decimals, the value of the
Python format .2f on the outputs of _parse_time_to_seconds. -/
def format_seconds_2f (n : ℤ) : String := toString n ++ ".00"

/-- Base string hashed by _deterministic_chunk_id:
video_id, date, start, end, source_type and index joined by bars. -/
def chunk_id_base (video_id date : String) (start_time end_time : ℤ)
    (source_type : String) (index : ℕ) : String :=
  video_id ++ "|" ++ date ++ "|" ++ format_seconds_2f start_time ++ "|" ++
    format_seconds_2f end_time ++ "|" ++ source_type ++ "|" ++ toString index

/-- Stand-in for the library call hashlib.sha256(base).hexdigest()[:16]: an
executable pure digest of the base string. The cryptographic function is
library code outside the repository; every property proved below uses only
that the digest is a function of the base string. -/
def sha256_hex16 (base : String) : String :=
  let h := base.data.foldl (fun acc c => (acc * 131 + c.toNat) % (2 ^ 64)) 5381
  let hex := Nat.toDigits 16 h
  String.mk (List.replicate (16 - hex.length) '0' ++ hex)

/-- Embeds _deterministic_chunk_id of src/src/memory/chunking.py. -/
def deterministic_chunk_id (video_id date : String) (start_time end_time : ℤ)
    (source_type : String) (index : ℕ) : String :=
  "chunk_" ++ sha256_hex16 (chunk_id_base video_id date start_time end_time source_type index)

/-- Metadata attached to a chunk, the base_metadata dict of the source plus
the two flags. -/
structure ChunkMetadata where
  activity : String
  location : Option String
  source_reliability : String
  participant_count : ℕ
  audio_segment_count : ℕ
  video_frame_count : ℕ
  has_transcript : Bool := false
  is_action_item : Bool := false
  deriving Repr, DecidableEq

/-- Embeds the Chunk dataclass of src/src/memory/chunking.py. -/
structure Chunk where
  chunk_id : String
  video_id : String
  date : String
  start_time : ℤ
  end_time : ℤ
  speakers : List String
  source_type : String
  text : String
  metadata : ChunkMetadata
  deriving Repr, DecidableEq

/-- Chunks derived from one enumerated TimeBlock, the body of the for-loop
of make_chunks_from_daily_summary: an optional summary chunk, an optional
transcript chunk, and one chunk per action item. -/
def blockChunks (video_id date : String) (max_chars idx : ℕ) (block : TimeBlock) :
    List Chunk :=
  let start_sec := parse_time_to_seconds block.start_time
  let end_sec := parse_time_to_seconds block.end_time
  let speakers := collect_speakers block
  let base_metadata : ChunkMetadata :=
    { activity := block.activity
      location := block.location
      source_reliability := block.source_reliability
      participant_count := block.participants.length
      audio_segment_count := block.audio_segments.length
      video_frame_count := block.video_frames.length }
  let summary_text := build_summary_text block
  let summaryChunks :=
    if summary_text.isEmpty then []
    else
      [{ chunk_id := deterministic_chunk_id video_id date start_sec end_sec
           "summary_block" (idx * 2)
         video_id := video_id, date := date
         start_time := start_sec, end_time := end_sec
         speakers := speakers, source_type := "summary_block"
         text := truncateText max_chars summary_text
         metadata := base_metadata }]
  let transcript_text := build_transcript_text block
  let transcriptChunks :=
    if transcript_text.isEmpty then []
    else
      [{ chunk_id := deterministic_chunk_id video_id date start_sec end_sec
           "transcript_block" (idx * 2 + 1)
         video_id := video_id, date := date
         start_time := start_sec, end_time := end_sec
         speakers := speakers, source_type := "transcript_block"
         text := truncateText max_chars transcript_text
         metadata := { base_metadata with has_transcript := true } }]
  let actionChunks :=
    block.action_items.enum.map (fun q =>
      { chunk_id := deterministic_chunk_id video_id date start_sec end_sec
          "action_item" ((idx + 1) * 100 + q.1)
        video_id := video_id, date := date
        start_time := start_sec, end_time := end_sec
        speakers := speakers, source_type := "action_item"
        text := truncateText max_chars ("Action item: " ++ q.2)
        metadata := { base_metadata with is_action_item := true } })
  summaryChunks ++ transcriptChunks ++ actionChunks

/-- Embeds make_chunks_from_daily_summary of src/src/memory/chunking.py;
the source default for max_chars is 1000. -/
def make_chunks_from_daily_summary (summary : DailySummary)
    (max_chars : ℕ := 1000) : List Chunk :=
  let video_id := if summary.video_source.isEmpty then "unknown_video"
    else summary.video_source
  summary.time_blocks.enum.flatMap
    (fun p => blockChunks video_id summary.date max_chars p.1 p.2)

/-! ## src/infrastructure/dispatcher/main.py

The dispatcher consumes SQS records one at a time. DynamoDB, ECS and SQS
effects are modelled as explicit state; the model treats the conditional
put of DynamoDB as reliable, that is a conditional insert either succeeds
or fails its key-not-exists condition. A HeadObject or RunTask
infrastructure failure raises and aborts the batch with the message left
undeleted; no claim below concerns those aborts, so HeadObject is modelled
as a total map from keys to ETags and RunTask as always starting a task. -/

/-- Queue message after JSON parsing: an S3 upload event, a ProcessingJob
confirmation, or a body of neither shape. -/
inductive QueueMessage
  | s3Event (bucket key : String)
  | processingJob (job_id key bucket : String)
  | invalid
  deriving Repr, DecidableEq

/-- Job record of the jobs table, restricted to the fields the dispatcher
reads and writes. -/
structure JobRecord where
  job_id : String
  status : String
  current_stage : String
  s3_key : String
  s3_bucket : String
  etag : String
  task_arn : Option String := none
  deriving Repr, DecidableEq

/-- State visible to the dispatcher: claimed idempotency keys, job
records, and the job ids for which an executor task was started. -/
structure DispatchState where
  idempotency : List String
  jobs : List JobRecord
  launched : List String
  deriving Repr, DecidableEq

/-- Embeds _parse_message: returns (job_id, s3_key, s3_bucket,
is_s3_event). An S3 event carries a fresh uuid4 as its provisional job id;
a missing bucket falls back to the default bucket; a ProcessingJob body
yields its own fields with empty strings for missing ones. -/
def parse_message (default_bucket fresh_uuid : String) :
    QueueMessage → String × String × String × Bool
  | .s3Event bucket key =>
    (fresh_uuid, key, if bucket.isEmpty then default_bucket else bucket, true)
  | .processingJob j k b =>
    (j, k, if b.isEmpty then default_bucket else b, false)
  | .invalid => ("", "", default_bucket, false)

/-- Embeds _find_queued_job_by_s3_key: the job id of a queued job with the
given key, if any (the DynamoDB scan with limit 1 is modelled as the first
match). -/
def find_queued_job_by_s3_key (jobs : List JobRecord) (s3_key : String) : Option String :=
  (jobs.find? (fun j => j.s3_key = s3_key && j.status = "queued")).map (·.job_id)

/-- Observable outcome of processing one queue record. claimed_key is the
idempotency key inserted when the message passed the claim step. -/
structure StepResult where
  state : DispatchState
  message_deleted : Bool
  job_created : Bool
  task_launched : Bool
  claimed_key : Option String
  dispatched : ℕ
  deriving Repr, DecidableEq

/-- Embeds the body of the per-record loop of lambda_handler: parse and
validate, resolve the job id (adopting the confirm-created queued job for
an S3 event, else skipping), HeadObject for the ETag, the conditional
idempotency claim, the conditional job create, RunTask, the task_arn
update, and the message delete. -/
def process_record (etags : String → String) (default_bucket fresh_uuid new_task_arn : String)
    (st : DispatchState) (msg : QueueMessage) : StepResult :=
  let parsed := parse_message default_bucket fresh_uuid msg
  let job_id0 := parsed.1
  let s3_key := parsed.2.1
  let s3_bucket := parsed.2.2.1
  let is_s3 := parsed.2.2.2
  if s3_key.isEmpty then
    { state := st, message_deleted := true, job_created := false,
      task_launched := false, claimed_key := none, dispatched := 0 }
  else if !is_s3 && job_id0.isEmpty then
    { state := st, message_deleted := true, job_created := false,
      task_launched := false, claimed_key := none, dispatched := 0 }
  else
    let etag := etags s3_key
    let job_id? : Option String :=
      if is_s3 then find_queued_job_by_s3_key st.jobs s3_key else some job_id0
    match job_id? with
    | none =>
      { state := st, message_deleted := true, job_created := false,
        task_launched := false, claimed_key := none, dispatched := 0 }
    | some job_id =>
      let key := s3_key ++ "|" ++ etag
      if key ∈ st.idempotency then
        { state := st, message_deleted := true, job_created := false,
          task_launched := false, claimed_key := none, dispatched := 0 }
      else
        let st1 : DispatchState := { st with idempotency := key :: st.idempotency }
        let job_exists := st1.jobs.any (fun j => j.job_id = job_id)
        let st2 : DispatchState :=
          if job_exists then st1
          else { st1 with jobs :=
            { job_id := job_id, status := "queued", current_stage := "queued",
              s3_key := s3_key, s3_bucket := s3_bucket, etag := etag } :: st1.jobs }
        let st3 : DispatchState :=
          { st2 with
            launched := job_id :: st2.launched
            jobs := st2.jobs.map (fun j =>
              if j.job_id = job_id then { j with task_arn := some new_task_arn } else j) }
        { state := st3, message_deleted := true, job_created := !job_exists,
          task_launched := true, claimed_key := some key, dispatched := 1 }

/-- Embeds the record loop of lambda_handler over a batch; each record is
paired with the uuid4 its parse draws and the arn RunTask returns. Yields
the final state, the dispatched count, and the ordered idempotency keys
claimed by messages that passed the claim step. -/
def lambda_handler (etags : String → String) (default_bucket : String) :
    DispatchState → List (QueueMessage × String × String) →
      DispatchState × ℕ × List String
  | st, [] => (st, 0, [])
  | st, (m, fresh, arn) :: ms =>
    let r := process_record etags default_bucket fresh arn st m
    let rest := lambda_handler etags default_bucket r.state ms
    (rest.1, r.dispatched + rest.2.1, r.claimed_key.toList ++ rest.2.2)

/-- Idempotency key a message would claim, defined when the per-record
algorithm reaches the claim step: the message is valid and, for an S3
event, a confirm-created queued job exists. -/
def claim_key_of (etags : String → String) (st : DispatchState) :
    QueueMessage → Option String
  | .s3Event _ key =>
    if key.isEmpty then none
    else if (find_queued_job_by_s3_key st.jobs key).isSome then
      some (key ++ "|" ++ etags key)
    else none
  | .processingJob j k _ =>
    if k.isEmpty || j.isEmpty then none else some (k ++ "|" ++ etags k)
  | .invalid => none

/-! ## src/utils/idempotency.py -/

/-- Quote stripping of the Python strip applied to a quote character:
removes every leading and trailing double quote. -/
def stripQuotes (s : String) : String :=
  String.mk ((((s.data).dropWhile (· = '"')).reverse.dropWhile (· = '"')).reverse)

/-- Normalization of an ETag in _idempotency_key and mark_processed: strip
whitespace, then strip surrounding quotes. -/
def normalize_etag (etag : String) : String := stripQuotes etag.trim

/-- Embeds _idempotency_key of src/src/utils/idempotency.py. -/
def idempotency_key (s3_key etag : String) : String :=
  s3_key ++ "|" ++ normalize_etag etag

/-- Embeds the DynamoDB item written by mark_processed: key, raw s3_key,
normalized etag, processed_at timestamp, and the result key when truthy.
The put_item call is unconditional, replacing any record under the same
key; note the item has no status attribute. -/
def mark_processed_item (s3_key etag : String) (result_s3_key : Option String)
    (processed_at : String) : List (String × String) :=
  [("idempotency_key", idempotency_key s3_key etag),
   ("s3_key", s3_key),
   ("etag", normalize_etag etag),
   ("processed_at", processed_at)] ++
  (if strTruthy result_s3_key then [("result_s3_key", result_s3_key.getD "")] else [])

/-- ConditionExpression of the put_item of mark_processed: absent, the
write is an upsert (the dispatcher claim, by contrast, uses
attribute_not_exists). -/
def mark_processed_condition : Option String := none

/-! ## src/workers/ecs_processor.py

The executor entrypoint is modelled as a trace of its writes to the job
store, the object store and the idempotency table, in program order, on
the use_streaming_video_intake = false path (the streaming path emits the
same store updates). S3Service construction and HeadObject run before any
stage and their infrastructure failures abort the process before the
pipeline; no claim below concerns those aborts. -/

/-- Observable effect of one Executor run, in program order. -/
inductive ExecEvent
  | jobUpdate (status : String) (current_stage : Option String)
      (error_message : Option String) (result_s3_key : Option String)
      (failure_report_s3_key : Option String) (timing_keys : List String)
  | s3Upload (key : String) (ok : Bool)
  | failureReport (key : String) (ok : Bool) (error : String) (timing_keys : List String)
  | markProcessed (s3_key etag result_key : String)
  deriving Repr, DecidableEq

/-- Environment of one Executor run: identifiers from the task environment
and the outcome of every fallible step. pipeline_fail_at names the stage
from download through summarization whose call raises with message
err_msg; the upload flags are the outcomes of the two artifact uploads of
the upload stage and of the failure-report upload. The best-effort
indexing stage catches its own exceptions, so it needs no flag that
affects control flow. -/
structure ExecEnv where
  job_id : String
  s3_bucket : String
  s3_key : String
  jobs_table : String
  etag : String
  pipeline_fail_at : Option String := none
  err_msg : String := ""
  summary_upload_ok : Bool := true
  summary_upload_err : String := ""
  md_upload_ok : Bool := true
  md_upload_err : String := ""
  failure_report_upload_ok : Bool := true
  deriving Repr, DecidableEq

/-- Events of one update_job_status call: none when the table name is
empty, else a single jobUpdate write. -/
def jobUpdateEvents (table status : String) (stage error_message result_key frk : Option String)
    (timing_keys : List String) : List ExecEvent :=
  if table.isEmpty then []
  else [.jobUpdate status stage error_message result_key frk timing_keys]

/-- Stages run inside process_video, serialized with the audio branch
before the scene branch; the branch threads return their timings to the
joining thread, so only the accumulated key set matters to any store
write. -/
def pipelineStages : List String :=
  ["audio_extraction", "diarization", "asr", "scene_detection", "keyframes", "sync",
   "summarization"]

/-- Mandatory stages whose exception reaches the outer handler, before the
upload stage. -/
def mandatoryStages : List String :=
  ["download", "audio_extraction", "diarization", "asr", "scene_detection", "keyframes",
   "sync", "summarization"]

/-- Runs stages in order under stage_timing: the timing of a stage is
recorded in the finally block, on success and on failure alike, and a
failing stage stops the run. Returns the accumulated timing keys and the
failing stage, if any. -/
def runStages : List String → Option String → List String → List String × Option String
  | [], _, t => (t, none)
  | s :: rest, failAt, t =>
    let t1 := t ++ [s]
    if failAt = some s then (t1, some s) else runStages rest failAt t1

/-- Embeds _upload_failure_report under the guard of the outer handler:
attempted only when the S3 service exists and a jobs table is configured
(a stage failure implies the former, so the guard reduces to the table);
yields the events and the failure-report key, empty when the upload did
not succeed. -/
def failure_events (env : ExecEnv) (error : String) (t : List String) :
    List ExecEvent × String :=
  if env.jobs_table.isEmpty then ([], "")
  else
    let frk := "results/" ++ env.job_id ++ "/failure_report.json"
    ([.failureReport frk env.failure_report_upload_ok error t],
     if env.failure_report_upload_ok then frk else "")

/-- Events of the outer except handler followed by the exit code 1: the
failure-report attempt and the final failed update carrying the error
message and, only when the report upload succeeded, its key. -/
def failure_exit (env : ExecEnv) (error : String) (t : List String) :
    ℕ × List ExecEvent :=
  let fe := failure_events env error t
  (1, fe.1 ++
    jobUpdateEvents env.jobs_table "failed" (some "failed") (some error) none
      (if fe.2.isEmpty then none else some fe.2) t)

/-- Embeds main of src/src/workers/ecs_processor.py as the exit code and
the write trace of the run described by env. -/
def ecs_main (env : ExecEnv) : ℕ × List ExecEvent :=
  if env.job_id.isEmpty || env.s3_bucket.isEmpty || env.s3_key.isEmpty then (1, [])
  else
    let e0 := jobUpdateEvents env.jobs_table "processing" (some "started") none none none []
    let dl := runStages ["download"] env.pipeline_fail_at []
    match dl.2 with
    | some _ =>
      let fx := failure_exit env env.err_msg dl.1
      (fx.1, e0 ++ fx.2)
    | none =>
      let e1 := e0 ++
        jobUpdateEvents env.jobs_table "processing" (some "download") none none none dl.1
      let pp := runStages pipelineStages env.pipeline_fail_at dl.1
      match pp.2 with
      | some _ =>
        let fx := failure_exit env env.err_msg pp.1
        (fx.1, e1 ++ fx.2)
      | none =>
        let result_key := "results/" ++ env.job_id ++ "/summary.json"
        let md_key := "results/" ++ env.job_id ++ "/summary.md"
        let e2 := e1 ++
          jobUpdateEvents env.jobs_table "processing" (some "summarization") none none none
            pp.1
        let tU := pp.1 ++ ["upload"]
        if env.summary_upload_ok = false then
          let fx := failure_exit env ("Upload summary.json failed: " ++ env.summary_upload_err) tU
          (fx.1, e2 ++ [.s3Upload result_key false] ++ fx.2)
        else if env.md_upload_ok = false then
          let fx := failure_exit env ("Upload summary.md failed: " ++ env.md_upload_err) tU
          (fx.1, e2 ++ [.s3Upload result_key true, .s3Upload md_key false] ++ fx.2)
        else
          let e3 := e2 ++ [.s3Upload result_key true, .s3Upload md_key true] ++
            jobUpdateEvents env.jobs_table "processing" (some "upload") none none none tU
          let tI := tU ++ ["indexing"]
          let e4 := e3 ++
            jobUpdateEvents env.jobs_table "processing" (some "indexing") none none none tI
          let e5 := e4 ++ [.markProcessed env.s3_key env.etag result_key]
          (0, e5 ++
            jobUpdateEvents env.jobs_table "completed" (some "completed") none
              (some result_key) none tI)

/-- Accumulated timing keys at the instant the mandatory stage s raises. -/
def stagesThrough (s : String) : List String :=
  if s = "download" then ["download"]
  else "download" :: (pipelineStages.takeWhile (fun x => x ≠ s) ++ [s])

/-- Stage names carried by the current_stage updates of a trace, in
order. -/
def stage_updates (evs : List ExecEvent) : List String :=
  evs.filterMap (fun e =>
    match e with
    | .jobUpdate _ (some s) _ _ _ _ => some s
    | _ => none)

/-- Concrete environment of a fully successful Executor run. -/
def exampleExecEnv : ExecEnv :=
  { job_id := "j1", s3_bucket := "b", s3_key := "k", jobs_table := "tbl", etag := "E" }

/-- Concrete environment of a run whose asr stage raises. -/
def exampleFailEnv : ExecEnv :=
  { job_id := "j1", s3_bucket := "b", s3_key := "k", jobs_table := "tbl", etag := "E",
    pipeline_fail_at := some "asr", err_msg := "asr failed: boom" }

/-- Concrete TimeBlock used to exercise the chunk derivation. -/
def exampleTimeBlock : TimeBlock :=
  { start_time := "", end_time := "", activity := "a", action_items := ["x"] }

/-- Concrete DailySummary used to exercise the chunk derivation. -/
def exampleDailySummary : DailySummary := ⟨"2026-01-20", "v1", [exampleTimeBlock]⟩

/-- The summary chunk derived from exampleDailySummary. -/
def exampleChunk : Chunk :=
  { chunk_id := deterministic_chunk_id "v1" "2026-01-20" 0 0 "summary_block" 0
    video_id := "v1", date := "2026-01-20", start_time := 0, end_time := 0
    speakers := [], source_type := "summary_block"
    text := " - : a\nAction items:\n- x"
    metadata := { activity := "a", location := none, source_reliability := "Medium",
                  participant_count := 0, audio_segment_count := 0,
                  video_frame_count := 0 } }

/-! ## Theorems -/

/-- Helper: the empty string literal is empty. -/
theorem emptyStr_isEmpty : "".isEmpty = true := rfl

/-- Helper: an artifact key under results/ is never the empty string. -/
theorem results_key_isEmpty_false (j tail : String) :
    ("results/" ++ j ++ tail).isEmpty = false := by
  rw [Bool.eq_false_iff]
  intro h
  have h2 : ("results/" ++ j ++ tail) = "" := by
    rwa [← String.isEmpty_iff]
  have h3 := congrArg String.length h2
  simp [String.length_append] at h3
  exact absurd h3.1.1 (by decide)

/-- C10: synchronize_contexts raises ValueError exactly when both the
audio-segment list and the video-frame list are empty; with at least one
input non-empty it returns a list of contexts and raises nothing. -/
theorem C10_sync_empty_input_error (audio : List AudioSegment) (frames : List VideoFrame)
    (cs : Option ℚ) (sb : Option (List ℚ)) :
    (audio = [] → frames = [] →
      synchronize_contexts audio frames cs sb =
        .error "No audio segments or video frames provided - cannot synchronize contexts") ∧
    (audio ≠ [] ∨ frames ≠ [] →
      ∃ contexts, synchronize_contexts audio frames cs sb = .ok contexts) := by
  constructor
  · rintro rfl rfl
    rfl
  · intro h
    unfold synchronize_contexts
    have hff : (audio.isEmpty && frames.isEmpty) = false := by
      rcases h with h | h <;> cases audio <;> cases frames <;> simp_all
    simp only [hff, Bool.false_eq_true, if_false]
    rcases audio with _ | ⟨a, as⟩
    · rcases frames with _ | ⟨f, fs⟩
      · simp at hff
      · simp only [List.map_nil, List.map_cons, List.nil_append]
        rcases sb with _ | bs
        · exact ⟨_, rfl⟩
        · dsimp only
          split
          · exact ⟨_, rfl⟩
          · exact ⟨_, rfl⟩
    · simp only [List.map_cons, List.cons_append]
      rcases sb with _ | bs
      · exact ⟨_, rfl⟩
      · dsimp only
        split
        · exact ⟨_, rfl⟩
        · exact ⟨_, rfl⟩

/-- C10 witness: the theorem applied at an empty input and at a one-segment
input. -/
theorem C10_sync_empty_input_error_witness :
    synchronize_contexts [] [] none none =
      .error "No audio segments or video frames provided - cannot synchronize contexts" ∧
    ∃ contexts,
      synchronize_contexts [⟨10, 20, "SPEAKER_00", none⟩] [] (some 300) none = .ok contexts :=
  ⟨(C10_sync_empty_input_error [] [] none none).1 rfl rfl,
   (C10_sync_empty_input_error [⟨10, 20, "SPEAKER_00", none⟩] [] (some 300) none).2
     (Or.inl (by simp))⟩

/-- C2: evaluation of the source synchronize_contexts at the failing inputs.
The claim expects fixed windows over the timeline from 0 to the maximum of
the timestamps and the video duration, so for a segment 10-20 s and a frame
at 415 s it expects windows starting at 0 covering the whole timeline; the
source function has no video_duration parameter, starts the timeline at the
minimum observed timestamp (10), drops the data-free second window, and,
when scene boundaries are supplied (the production call), builds
scene-based windows instead of fixed-duration ones. -/
theorem C2_source_sync_window_structure :
    synchronize_contexts [⟨10, 20, "SPEAKER_00", none⟩] [⟨415, "frame_0415.jpg"⟩]
        (some 300) none =
      .ok [⟨10, 310, [⟨10, 20, "SPEAKER_00", none⟩], []⟩] ∧
    synchronize_contexts [⟨10, 20, "SPEAKER_00", none⟩] [⟨415, "frame_0415.jpg"⟩]
        (some 300) (some [200]) =
      .ok [⟨10, 200, [⟨10, 20, "SPEAKER_00", none⟩], []⟩, ⟨200, 415, [], []⟩] := by
  constructor
  · have h1 : ⌈(27:ℚ)/20⌉ = 2 := by
      rw [Int.ceil_eq_iff] <;> norm_num
    norm_num [synchronize_contexts, fixedWindowFuel, h1, fixedWindowLoop, windowAudio,
      windowFrames, segment_overlaps_window, List.filter]
  · norm_num [synchronize_contexts, sortedDedup, sortAsc, insertAsc, consecutivePairs,
      windowAudio, windowFrames, segment_overlaps_window, List.filter, List.dedup]

/-- C4: progress is a pure function of the pair of current stage and
timings; queued maps to 0, completed and failed map to 1, and every stage
of the vocabulary maps to its index plus one over the vocabulary size 12. -/
theorem C4_progress_derivation (t : Option (List (String × ℤ))) (s : String) :
    progress_from_stage_and_timings "queued" t = 0 ∧
    progress_from_stage_and_timings "completed" t = 1 ∧
    progress_from_stage_and_timings "failed" t = 1 ∧
    STAGE_ORDER.length = 12 ∧
    (s ∈ STAGE_ORDER →
      progress_from_stage_and_timings s t = ((STAGE_ORDER.indexOf s : ℚ) + 1) / 12) := by
  refine ⟨by simp [progress_from_stage_and_timings], by simp [progress_from_stage_and_timings],
    by simp [progress_from_stage_and_timings], by simp [STAGE_ORDER], ?_⟩
  intro hs
  simp only [STAGE_ORDER] at hs
  fin_cases hs <;> simp [progress_from_stage_and_timings, STAGE_ORDER] <;> norm_num

/-- C4 witness: the theorem applied at stage sync with no timings map. -/
theorem C4_progress_derivation_witness :
    progress_from_stage_and_timings "queued" none = 0 ∧
    progress_from_stage_and_timings "sync" none = 2/3 := by
  refine ⟨(C4_progress_derivation none "sync").1, ?_⟩
  have h := (C4_progress_derivation none "sync").2.2.2.2 (by simp [STAGE_ORDER])
  rw [h]
  have hi : STAGE_ORDER.indexOf "sync" = 7 := by simp [STAGE_ORDER, List.indexOf_cons]
  rw [hi]
  norm_num

/-- C6: the retry delay is max(15, min(90, advised)) when the message
advises a retry-after interval and max(15, min(90, 2 ^ (attempt + 4)))
otherwise; a 400 ms advised interval yields the 15 s floor; the sleep
performed by the loop at a rate-limited attempt with retries remaining is
exactly that delay; an always-rate-limited call gives up after max_retries
attempts with max_retries - 1 sleeps; the source default is 8 and the
summarization caller passes 5. -/
theorem C6_rate_limit_retry (m : Option (ℕ × Option RetryUnit)) (advised : ℚ)
    (attempt r : ℕ) (last : Option ApiErr) (e : ApiErr)
    (fn : ℕ → Except ApiErr ℕ) :
    (parsedRetryAfter m = some advised →
      retry_delay_seconds m attempt = max 15 (min 90 advised)) ∧
    (parsedRetryAfter m = none →
      retry_delay_seconds m attempt = max 15 (min 90 ((2 : ℚ) ^ (attempt + 4)))) ∧
    retry_delay_seconds (some (400, some RetryUnit.ms)) attempt = 15 ∧
    (fn attempt = .error e → e.is429 = true →
      (with_429_retry_go fn (r + 2) attempt last).2.head? =
        some (retry_delay_seconds e.retryAfter attempt)) ∧
    (e.is429 = true →
      (with_429_retry (fun _ => (.error e : Except ApiErr ℕ)) (r + 1)).1 =
        RetryOutcome.err e ∧
      (with_429_retry (fun _ => (.error e : Except ApiErr ℕ)) (r + 1)).2.length = r) ∧
    summarization_max_retries = 5 ∧ embeddings_max_retries = 8 := by
  refine ⟨?_, ?_, ?_, ?_, ?_, rfl, rfl⟩
  · intro h
    simp [retry_delay_seconds, h, MIN_RETRY_DELAY_429_SEC, MAX_RETRY_DELAY_SEC]
  · intro h
    simp [retry_delay_seconds, h, MIN_RETRY_DELAY_429_SEC, MAX_RETRY_DELAY_SEC]
  · norm_num [retry_delay_seconds, parsedRetryAfter, MIN_RETRY_DELAY_429_SEC,
      MAX_RETRY_DELAY_SEC]
  · intro hfn h429
    rw [show r + 2 = (r + 1) + 1 from rfl, with_429_retry_go.eq_3, hfn]
    simp [h429]
  · intro h429
    have go : ∀ n attempt last,
        (with_429_retry_go (fun _ => (.error e : Except ApiErr ℕ)) (n + 1) attempt last).1 =
          RetryOutcome.err e ∧
        (with_429_retry_go (fun _ => (.error e : Except ApiErr ℕ)) (n + 1) attempt
            last).2.length = n := by
      intro n
      induction n with
      | zero =>
        intro attempt last
        rw [show (0 : ℕ) + 1 = Nat.succ 0 from rfl, with_429_retry_go.eq_3]
        simp [h429]
      | succ k ih =>
        intro attempt last
        rw [show k + 1 + 1 = Nat.succ (k + 1) from rfl, with_429_retry_go.eq_3]
        simp only [h429, Bool.true_eq_false, if_false, Nat.succ_ne_zero, if_neg,
          Nat.add_one_ne_zero]
        simpa using ⟨(ih (attempt + 1) (some e)).1, (ih (attempt + 1) (some e)).2⟩
    exact ⟨(go r 0 none).1, (go r 0 none).2⟩

/-- C6 witness: the theorem applied at a 400 ms advised interval, at no
advised interval, at a rate-limited first attempt, and at an
always-rate-limited call with the default 8 attempts. -/
theorem C6_rate_limit_retry_witness :
    retry_delay_seconds (some (400, some RetryUnit.ms)) 0 = max 15 (min 90 (2/5 : ℚ)) ∧
    retry_delay_seconds none 3 = max 15 (min 90 ((2 : ℚ) ^ (3 + 4))) ∧
    retry_delay_seconds (some (400, some RetryUnit.ms)) 1 = 15 ∧
    (with_429_retry_go
        (fun _ => (.error ⟨true, some (400, some RetryUnit.ms)⟩ : Except ApiErr ℕ)) 2 0
        none).2.head? =
      some (retry_delay_seconds (some (400, some RetryUnit.ms)) 0) ∧
    (with_429_retry (fun _ => (.error ⟨true, none⟩ : Except ApiErr ℕ)) 8).1 =
      RetryOutcome.err ⟨true, none⟩ := by
  refine ⟨?_, ?_, ?_, ?_, ?_⟩
  · exact (C6_rate_limit_retry (some (400, some RetryUnit.ms)) (2/5) 0 0 none
      ⟨true, none⟩ (fun _ => .error ⟨true, none⟩)).1 (by norm_num [parsedRetryAfter])
  · exact (C6_rate_limit_retry none (2/5) 3 0 none ⟨true, none⟩
      (fun _ => .error ⟨true, none⟩)).2.1 rfl
  · exact (C6_rate_limit_retry none 0 1 0 none ⟨true, none⟩
      (fun _ => .error ⟨true, none⟩)).2.2.1
  · exact (C6_rate_limit_retry none 0 0 0 none ⟨true, some (400, some RetryUnit.ms)⟩
      (fun _ => .error ⟨true, some (400, some RetryUnit.ms)⟩)).2.2.2.1 rfl rfl
  · exact ((C6_rate_limit_retry none 0 0 7 none ⟨true, none⟩
      (fun _ => .error ⟨true, none⟩)).2.2.2.2.1 rfl).1

/-- C8: when the stored byte length differs from the source byte length,
upload_file deletes the partial object and returns a failure result; a
success result is returned only when head_object succeeded and reported
exactly the source byte length. -/
theorem C8_upload_size_verification (bucket_name s3_key : String) (file_exists : Bool)
    (file_size : ℕ) (put_outcome : Option String)
    (head_outcome : Except String (ℕ × String)) (s3_file_size : ℕ) (etag : String)
    (r : S3UploadResult) (deleted : Bool) :
    (s3_file_size ≠ file_size →
      upload_file bucket_name s3_key true file_size none (.ok (s3_file_size, etag)) =
        .ok ({ success := false,
               s3_path := "s3://" ++ bucket_name ++ "/" ++ s3_key,
               bucket := bucket_name, key := s3_key, file_size := file_size,
               error := some "Unexpected error during upload: S3 upload size mismatch" },
             true)) ∧
    (upload_file bucket_name s3_key file_exists file_size put_outcome head_outcome =
        .ok (r, deleted) → r.success = true →
      put_outcome = none ∧ ∃ et, head_outcome = .ok (file_size, et) ∧ r.etag = some et) := by
  constructor
  · intro hne
    simp [upload_file, hne]
  · intro h hsucc
    cases file_exists with
    | false => simp [upload_file] at h
    | true =>
      cases put_outcome with
      | some e =>
        simp [upload_file] at h
        rw [← h.1] at hsucc
        simp at hsucc
      | none =>
        cases head_outcome with
        | error e =>
          simp [upload_file] at h
          rw [← h.1] at hsucc
          simp at hsucc
        | ok p =>
          obtain ⟨ss, et⟩ := p
          by_cases hss : ss ≠ file_size
          · simp [upload_file, hss] at h
            rw [← h.1] at hsucc
            simp at hsucc
          · push_neg at hss
            subst hss
            simp [upload_file] at h
            refine ⟨rfl, et, rfl, ?_⟩
            rw [← h.1]

/-- C8 witness: the theorem applied at a 90-versus-100 byte mismatch and at
a matching 100-byte upload. -/
theorem C8_upload_size_verification_witness :
    upload_file "b" "k" true 100 none (.ok (90, "e1")) =
      .ok ({ success := false, s3_path := "s3://b/k", bucket := "b", key := "k",
             file_size := 100,
             error := some "Unexpected error during upload: S3 upload size mismatch" },
           true) ∧
    ((none : Option String) = none ∧
      ∃ et, (.ok (100, "e1") : Except String (ℕ × String)) = .ok (100, et) ∧
        ({ success := true, s3_path := "s3://b/k", bucket := "b", key := "k",
           file_size := 100, etag := some "e1" } : S3UploadResult).etag = some et) := by
  constructor
  · exact (C8_upload_size_verification "b" "k" true 100 none (.ok (90, "e1")) 90 "e1"
      { success := false, s3_path := "", bucket := "", key := "", file_size := 0 }
      false).1 (by decide)
  · exact (C8_upload_size_verification "b" "k" true 100 none (.ok (100, "e1")) 100 "e1"
      { success := true, s3_path := "s3://b/k", bucket := "b", key := "k",
        file_size := 100, etag := some "e1" } false).2 (by simp [upload_file]) rfl

/-- C9: chunk derivation is deterministic: equal summaries yield the same
chunk sequence, and every derived chunk carries a chunk_id that is the
deterministic digest of its video identity, date, block start and end
seconds, source kind, and a position index. -/
theorem C9_chunk_determinism (s1 s2 : DailySummary) (mc : ℕ) (c : Chunk) :
    (s1 = s2 →
      make_chunks_from_daily_summary s1 mc = make_chunks_from_daily_summary s2 mc) ∧
    (c ∈ make_chunks_from_daily_summary s1 mc →
      ∃ i, c.chunk_id =
        deterministic_chunk_id c.video_id c.date c.start_time c.end_time c.source_type i) := by
  constructor
  · rintro rfl
    rfl
  · intro hc
    simp only [make_chunks_from_daily_summary, List.mem_flatMap] at hc
    obtain ⟨⟨idx, b⟩, hp, hcp⟩ := hc
    simp only [blockChunks] at hcp
    rcases List.mem_append.mp hcp with hST | hC
    · rcases List.mem_append.mp hST with hA | hB
      · by_cases h : (build_summary_text b).isEmpty
        · simp [h] at hA
        · simp only [h, Bool.false_eq_true, if_false, List.mem_singleton] at hA
          subst hA
          exact ⟨idx * 2, rfl⟩
      · by_cases h : (build_transcript_text b).isEmpty
        · simp [h] at hB
        · simp only [h, Bool.false_eq_true, if_false, List.mem_singleton] at hB
          subst hB
          exact ⟨idx * 2 + 1, rfl⟩
    · simp only [List.mem_map] at hC
      obtain ⟨⟨j, item⟩, hj, hcj⟩ := hC
      subst hcj
      exact ⟨(idx + 1) * 100 + j, rfl⟩

set_option maxRecDepth 8000 in
/-- C9 witness: the theorem applied at a summary with one block and one
action item; the summary chunk is a member of the derived list and its id
is the digest of its own fields. -/
theorem C9_chunk_determinism_witness :
    ∃ c, c ∈ make_chunks_from_daily_summary exampleDailySummary 1000 ∧
      ∃ i, c.chunk_id =
        deterministic_chunk_id c.video_id c.date c.start_time c.end_time c.source_type i := by
  have hm : exampleChunk ∈ make_chunks_from_daily_summary exampleDailySummary 1000 := by
    decide
  exact ⟨exampleChunk, hm,
    (C9_chunk_determinism exampleDailySummary exampleDailySummary 1000 exampleChunk).2 hm⟩

/-- C1: a queue message whose idempotency claim already exists is deleted
and leaves the state untouched: no job creation, no executor launch; and
across any batch from any starting state, the idempotency keys claimed by
messages that pass the claim step are pairwise distinct and all previously
unclaimed, so at most one message per (object_key, object_version) tuple
ever proceeds past the claim step. -/
theorem C1_at_most_one_dispatch (etags : String → String) (db fresh arn k : String)
    (st : DispatchState) (msg : QueueMessage)
    (msgs : List (QueueMessage × String × String)) :
    (claim_key_of etags st msg = some k → k ∈ st.idempotency →
      process_record etags db fresh arn st msg =
        { state := st, message_deleted := true, job_created := false,
          task_launched := false, claimed_key := none, dispatched := 0 }) ∧
    (lambda_handler etags db st msgs).2.2.Nodup ∧
    (∀ k2 ∈ (lambda_handler etags db st msgs).2.2, k2 ∉ st.idempotency) := by
  have step : ∀ (st : DispatchState) (m : QueueMessage) (f a : String),
      ((process_record etags db f a st m).claimed_key = none ∧
        (process_record etags db f a st m).state.idempotency = st.idempotency) ∨
      (∃ ck, (process_record etags db f a st m).claimed_key = some ck ∧
        ck ∉ st.idempotency ∧
        (process_record etags db f a st m).state.idempotency = ck :: st.idempotency) := by
    intro st m f a
    cases m with
    | invalid => left; exact ⟨rfl, rfl⟩
    | s3Event bucket key =>
      simp only [process_record, parse_message]
      by_cases hk : key.isEmpty
      · simp [hk]
      · simp only [hk, Bool.false_eq_true, if_false, if_true]
        cases hfind : find_queued_job_by_s3_key st.jobs key with
        | none => simp [hfind]
        | some j =>
          simp only [hfind]
          by_cases hmem : (key ++ "|" ++ etags key) ∈ st.idempotency
          · simp [hmem]
          · right
            refine ⟨key ++ "|" ++ etags key, ?_, hmem, ?_⟩
            · simp [hmem]
            · by_cases hje : st.jobs.any (fun jr => jr.job_id = j)
              · simp [hmem, hje]
              · simp [hmem, hje]
    | processingJob j kk b =>
      simp only [process_record, parse_message]
      by_cases hkk : kk.isEmpty
      · simp [hkk]
      · by_cases hj : j.isEmpty
        · simp [hkk, hj]
        · simp only [hkk, hj, Bool.false_eq_true, if_false, Bool.not_false, Bool.and_self,
            if_true, Bool.not_true, Bool.false_and]
          by_cases hmem : (kk ++ "|" ++ etags kk) ∈ st.idempotency
          · simp [hmem]
          · right
            refine ⟨kk ++ "|" ++ etags kk, ?_, hmem, ?_⟩
            · simp [hmem]
            · by_cases hje : st.jobs.any (fun jr => jr.job_id = j)
              · simp [hmem, hje]
              · simp [hmem, hje]
  refine ⟨?_, ?_⟩
  · intro hck hmem
    cases msg with
    | invalid => simp [claim_key_of] at hck
    | s3Event bucket key =>
      simp only [claim_key_of] at hck
      by_cases hk : key.isEmpty
      · simp [hk] at hck
      · simp only [hk, Bool.false_eq_true, if_false] at hck
        by_cases hfind : (find_queued_job_by_s3_key st.jobs key).isSome
        · simp only [hfind, if_true, Option.some.injEq] at hck
          obtain ⟨j, hj⟩ := Option.isSome_iff_exists.mp hfind
          subst hck
          simp [process_record, parse_message, hk, hj, hmem]
        · simp [hfind] at hck
    | processingJob j kk b =>
      simp only [claim_key_of] at hck
      by_cases hkk : kk.isEmpty
      · simp [hkk] at hck
      · by_cases hj : j.isEmpty
        · simp [hkk, hj] at hck
        · simp only [hkk, hj, Bool.or_self, Bool.false_eq_true, if_false,
            Option.some.injEq] at hck
          subst hck
          simp [process_record, parse_message, hkk, hj, hmem]
  · have run : ∀ (ms : List (QueueMessage × String × String)) (st : DispatchState),
        (lambda_handler etags db st ms).2.2.Nodup ∧
        ∀ k2 ∈ (lambda_handler etags db st ms).2.2, k2 ∉ st.idempotency := by
      intro ms
      induction ms with
      | nil => intro st; simp [lambda_handler]
      | cons p rest ih =>
        intro st
        obtain ⟨m, f, a⟩ := p
        simp only [lambda_handler]
        rcases step st m f a with ⟨h1, h2⟩ | ⟨ck, h1, h2, h3⟩
        · have hih := ih (process_record etags db f a st m).state
          rw [h2] at hih
          simpa [h1] using hih
        · have hih := ih (process_record etags db f a st m).state
          rw [h3] at hih
          simp only [h1, Option.toList_some, List.singleton_append]
          constructor
          · refine List.nodup_cons.mpr ⟨?_, hih.1⟩
            intro hin
            exact (hih.2 ck hin) (List.mem_cons_self ck _)
          · intro k2 hk2
            rcases List.mem_cons.mp hk2 with rfl | hk2r
            · exact h2
            · intro hbad
              exact (hih.2 k2 hk2r) (List.mem_cons_of_mem _ hbad)
    exact run msgs st

/-- C1 witness: the theorem applied at a confirmation message whose claim
is already held, and at a duplicate-delivery batch of two messages for the
same object, of which only the first claims. -/
theorem C1_at_most_one_dispatch_witness :
    process_record (fun _ => "E") "bkt" "u1" "arn1" ⟨["k1|E"], [], []⟩
        (.processingJob "j1" "k1" "b1") =
      { state := ⟨["k1|E"], [], []⟩, message_deleted := true, job_created := false,
        task_launched := false, claimed_key := none, dispatched := 0 } ∧
    (lambda_handler (fun _ => "E") "bkt" ⟨[], [], []⟩
        [(.processingJob "j1" "k1" "b1", "u1", "a1"),
         (.processingJob "j2" "k1" "b1", "u2", "a2")]).2.2.Nodup ∧
    (lambda_handler (fun _ => "E") "bkt" ⟨[], [], []⟩
        [(.processingJob "j1" "k1" "b1", "u1", "a1"),
         (.processingJob "j2" "k1" "b1", "u2", "a2")]).2.2 = ["k1|E"] := by
  refine ⟨?_, ?_, by decide⟩
  · exact (C1_at_most_one_dispatch (fun _ => "E") "bkt" "u1" "arn1" "k1|E"
      ⟨["k1|E"], [], []⟩ (.processingJob "j1" "k1" "b1") []).1 (by decide) (by decide)
  · exact (C1_at_most_one_dispatch (fun _ => "E") "bkt" "u1" "arn1" "k1|E" ⟨[], [], []⟩
      (.processingJob "j1" "k1" "b1")
      [(.processingJob "j1" "k1" "b1", "u1", "a1"),
       (.processingJob "j2" "k1" "b1", "u2", "a2")]).2.1

/-- C3: when a mandatory stage raises (any of download through
summarization via pipeline_fail_at, or either artifact upload of the
upload stage), the Executor attempts the failure-report upload at
results/job_id/failure_report.json with the error message and the
accumulated timings, its last store write is the failed update carrying
current_stage failed, the error message, and the report key only when the
report upload succeeded, it exits with code 1, and it never calls
mark_processed. -/
theorem C3_failure_path (env : ExecEnv) (s : String)
    (hj : env.job_id.isEmpty = false) (hb : env.s3_bucket.isEmpty = false)
    (hk : env.s3_key.isEmpty = false) (ht : env.jobs_table.isEmpty = false) :
    (env.pipeline_fail_at = some s → s ∈ mandatoryStages →
      (ecs_main env).1 = 1 ∧
      ExecEvent.failureReport ("results/" ++ env.job_id ++ "/failure_report.json")
          env.failure_report_upload_ok env.err_msg (stagesThrough s) ∈ (ecs_main env).2 ∧
      (ecs_main env).2.getLast? = some (.jobUpdate "failed" (some "failed")
        (some env.err_msg) none
        (if env.failure_report_upload_ok = true
          then some ("results/" ++ env.job_id ++ "/failure_report.json") else none)
        (stagesThrough s)) ∧
      ∀ a b c, ExecEvent.markProcessed a b c ∉ (ecs_main env).2) ∧
    (env.pipeline_fail_at = none → env.summary_upload_ok = false →
      (ecs_main env).1 = 1 ∧
      ExecEvent.failureReport ("results/" ++ env.job_id ++ "/failure_report.json")
          env.failure_report_upload_ok
          ("Upload summary.json failed: " ++ env.summary_upload_err)
          (mandatoryStages ++ ["upload"]) ∈ (ecs_main env).2 ∧
      (ecs_main env).2.getLast? = some (.jobUpdate "failed" (some "failed")
        (some ("Upload summary.json failed: " ++ env.summary_upload_err)) none
        (if env.failure_report_upload_ok = true
          then some ("results/" ++ env.job_id ++ "/failure_report.json") else none)
        (mandatoryStages ++ ["upload"])) ∧
      ∀ a b c, ExecEvent.markProcessed a b c ∉ (ecs_main env).2) ∧
    (env.pipeline_fail_at = none → env.summary_upload_ok = true → env.md_upload_ok = false →
      (ecs_main env).1 = 1 ∧
      (ecs_main env).2.getLast? = some (.jobUpdate "failed" (some "failed")
        (some ("Upload summary.md failed: " ++ env.md_upload_err)) none
        (if env.failure_report_upload_ok = true
          then some ("results/" ++ env.job_id ++ "/failure_report.json") else none)
        (mandatoryStages ++ ["upload"])) ∧
      ∀ a b c, ExecEvent.markProcessed a b c ∉ (ecs_main env).2) := by
  refine ⟨?_, ?_, ?_⟩
  · intro hfail hs
    simp only [mandatoryStages] at hs
    fin_cases hs <;>
      (refine ⟨?_, ?_, ?_, ?_⟩ <;>
        (try intro a b c) <;>
        (cases hr : env.failure_report_upload_ok <;>
          simp [ecs_main, runStages, pipelineStages, failure_exit, failure_events,
            jobUpdateEvents, stagesThrough, hj, hb, hk, ht, hfail, hr,
            results_key_isEmpty_false, emptyStr_isEmpty]))
  · intro hfail hup
    refine ⟨?_, ?_, ?_, ?_⟩ <;>
      (try intro a b c) <;>
      (cases hr : env.failure_report_upload_ok <;>
        simp [ecs_main, runStages, pipelineStages, mandatoryStages, failure_exit,
          failure_events, jobUpdateEvents, hj, hb, hk, ht, hfail, hup, hr,
          results_key_isEmpty_false, emptyStr_isEmpty])
  · intro hfail hup hmd
    refine ⟨?_, ?_, ?_⟩ <;>
      (try intro a b c) <;>
      (cases hr : env.failure_report_upload_ok <;>
        simp [ecs_main, runStages, pipelineStages, mandatoryStages, failure_exit,
          failure_events, jobUpdateEvents, hj, hb, hk, ht, hfail, hup, hmd, hr,
          results_key_isEmpty_false, emptyStr_isEmpty])

/-- C3 witness: the theorem applied at a run whose asr stage raises with
the report upload succeeding. -/
theorem C3_failure_path_witness :
    (ecs_main exampleFailEnv).1 = 1 ∧
    ExecEvent.failureReport "results/j1/failure_report.json" true "asr failed: boom"
      (stagesThrough "asr") ∈ (ecs_main exampleFailEnv).2 ∧
    (ecs_main exampleFailEnv).2.getLast? = some (.jobUpdate "failed" (some "failed")
      (some "asr failed: boom") none (some "results/j1/failure_report.json")
      (stagesThrough "asr")) ∧
    ExecEvent.markProcessed "k" "E" "results/j1/summary.json" ∉
      (ecs_main exampleFailEnv).2 := by
  have T := (C3_failure_path exampleFailEnv "asr" rfl rfl rfl rfl).1 rfl (by decide)
  exact ⟨T.1, T.2.1, T.2.2.1, T.2.2.2 "k" "E" "results/j1/summary.json"⟩

/-- C5 counterexample: the item written by mark_processed carries no
status attribute, so the claim that the record is upserted with status
equal to processed fails at a concrete call. -/
theorem C5_mark_processed_counterexample :
    ("status", "processed") ∉
      mark_processed_item "k" "E" (some "results/j1/summary.json") "2026-01-20T00:00:00Z" := by
  decide

/-- C5 amended: mark_processed performs an unconditional upsert recording
processed_at and, when truthy, result_s3_key, but writes no status
attribute; and the Executor emits the mark_processed call only on the
success path, after the whole pipeline, with the summary result key. -/
theorem C5_mark_processed_amended (s3_key etag rk now a b c v : String) (env : ExecEnv) :
    mark_processed_condition = none ∧
    ("processed_at", now) ∈ mark_processed_item s3_key etag (some rk) now ∧
    (rk.isEmpty = false →
      ("result_s3_key", rk) ∈ mark_processed_item s3_key etag (some rk) now) ∧
    ("status", v) ∉ mark_processed_item s3_key etag (some rk) now ∧
    (ExecEvent.markProcessed a b c ∈ (ecs_main env).2 →
      (ecs_main env).1 = 0 ∧ a = env.s3_key ∧ b = env.etag ∧
        c = "results/" ++ env.job_id ++ "/summary.json") ∧
    (env.job_id.isEmpty = false → env.s3_bucket.isEmpty = false →
      env.s3_key.isEmpty = false → env.pipeline_fail_at = none →
      env.summary_upload_ok = true → env.md_upload_ok = true →
      ExecEvent.markProcessed env.s3_key env.etag
        ("results/" ++ env.job_id ++ "/summary.json") ∈ (ecs_main env).2) := by
  refine ⟨rfl, ?_, ?_, ?_, ?_, ?_⟩
  · simp [mark_processed_item]
  · intro h
    simp [mark_processed_item, strTruthy, h]
  · simp [mark_processed_item, strTruthy]
  · intro hmem
    by_cases hv : (env.job_id.isEmpty || env.s3_bucket.isEmpty || env.s3_key.isEmpty)
    · simp [ecs_main, hv] at hmem
    · rcases hdl : (runStages ["download"] env.pipeline_fail_at []).2 with _ | s1
      · rcases hpp : (runStages pipelineStages env.pipeline_fail_at
            (runStages ["download"] env.pipeline_fail_at []).1).2 with _ | s2
        · by_cases hsu : env.summary_upload_ok
          · by_cases hmu : env.md_upload_ok
            · by_cases ht : env.jobs_table.isEmpty <;>
                (simp [ecs_main, hv, hdl, hpp, hsu, hmu, ht, jobUpdateEvents] at hmem ⊢ <;>
                  exact hmem)
            · by_cases ht : env.jobs_table.isEmpty <;>
                cases hr : env.failure_report_upload_ok <;>
                simp [ecs_main, hv, hdl, hpp, hsu, hmu, ht, hr, jobUpdateEvents,
                  failure_exit, failure_events, results_key_isEmpty_false,
                  emptyStr_isEmpty] at hmem
          · by_cases ht : env.jobs_table.isEmpty <;>
              cases hr : env.failure_report_upload_ok <;>
              simp [ecs_main, hv, hdl, hpp, hsu, ht, hr, jobUpdateEvents,
                failure_exit, failure_events, results_key_isEmpty_false,
                emptyStr_isEmpty] at hmem
        · by_cases ht : env.jobs_table.isEmpty <;>
            cases hr : env.failure_report_upload_ok <;>
            simp [ecs_main, hv, hdl, hpp, ht, hr, jobUpdateEvents, failure_exit,
              failure_events, results_key_isEmpty_false, emptyStr_isEmpty] at hmem
      · by_cases ht : env.jobs_table.isEmpty <;>
          cases hr : env.failure_report_upload_ok <;>
          simp [ecs_main, hv, hdl, ht, hr, jobUpdateEvents, failure_exit,
            failure_events, results_key_isEmpty_false, emptyStr_isEmpty] at hmem
  · intro hj hb hk hpf hsu hmu
    by_cases ht : env.jobs_table.isEmpty <;>
      simp [ecs_main, runStages, pipelineStages, hj, hb, hk, hpf, hsu, hmu, ht,
        jobUpdateEvents]

/-- C5 witness: the theorem applied at a concrete item and at the
successful run, whose trace contains the mark_processed call and exits
with code 0. -/
theorem C5_mark_processed_amended_witness :
    ("processed_at", "2026-01-20T00:00:00Z") ∈
      mark_processed_item "k" "E" (some "results/j1/summary.json") "2026-01-20T00:00:00Z" ∧
    ("result_s3_key", "results/j1/summary.json") ∈
      mark_processed_item "k" "E" (some "results/j1/summary.json") "2026-01-20T00:00:00Z" ∧
    ExecEvent.markProcessed "k" "E" "results/j1/summary.json" ∈
      (ecs_main exampleExecEnv).2 ∧
    (ecs_main exampleExecEnv).1 = 0 := by
  have T := C5_mark_processed_amended "k" "E" "results/j1/summary.json"
    "2026-01-20T00:00:00Z" "k" "E" "results/j1/summary.json" "processed" exampleExecEnv
  have hmem := T.2.2.2.2.2 rfl rfl rfl rfl rfl rfl
  exact ⟨T.2.1, T.2.2.1 (by decide), hmem, (T.2.2.2.2.1 hmem).1⟩

/-- C7 counterexample: on a fully successful run the sync stage completes
(it appears in the accumulated timings of the final update) yet no store
update ever carries current_stage sync; the executor emits updates only at
started, download, summarization, upload, indexing, and completed. -/
theorem C7_stage_updates_counterexample :
    (ecs_main exampleExecEnv).1 = 0 ∧
    (ecs_main exampleExecEnv).2.getLast? = some (.jobUpdate "completed" (some "completed")
      none (some "results/j1/summary.json") none
      ["download", "audio_extraction", "diarization", "asr", "scene_detection",
       "keyframes", "sync", "summarization", "upload", "indexing"]) ∧
    stage_updates (ecs_main exampleExecEnv).2 =
      ["started", "download", "summarization", "upload", "indexing", "completed"] ∧
    "sync" ∉ stage_updates (ecs_main exampleExecEnv).2 := by
  refine ⟨by decide, by decide, by decide, by decide⟩

/-- C7 amended: on a successful run the Executor emits current_stage
updates exactly at started, download, summarization, upload, indexing and
completed, in that order, which is a subsequence of the canonical stage
order; the remaining stages record timings but emit no update of their
own. -/
theorem C7_stage_updates_amended (env : ExecEnv)
    (hj : env.job_id.isEmpty = false) (hb : env.s3_bucket.isEmpty = false)
    (hk : env.s3_key.isEmpty = false) (ht : env.jobs_table.isEmpty = false)
    (hpf : env.pipeline_fail_at = none) (hsu : env.summary_upload_ok = true)
    (hmu : env.md_upload_ok = true) :
    stage_updates (ecs_main env).2 =
      ["started", "download", "summarization", "upload", "indexing", "completed"] ∧
    List.Sublist (stage_updates (ecs_main env).2) STAGE_ORDER := by
  have h1 : stage_updates (ecs_main env).2 =
      ["started", "download", "summarization", "upload", "indexing", "completed"] := by
    simp [ecs_main, runStages, pipelineStages, stage_updates, jobUpdateEvents,
      hj, hb, hk, ht, hpf, hsu, hmu]
  refine ⟨h1, ?_⟩
  rw [h1]
  decide

/-- C7 witness: the amended theorem applied at the successful concrete
run. -/
theorem C7_stage_updates_amended_witness :
    stage_updates (ecs_main exampleExecEnv).2 =
      ["started", "download", "summarization", "upload", "indexing", "completed"] ∧
    List.Sublist (stage_updates (ecs_main exampleExecEnv).2) STAGE_ORDER :=
  C7_stage_updates_amended exampleExecEnv rfl rfl rfl rfl rfl rfl rfl

end LifeStream
